import Mathlib

/-!
A shallow embedding of the `pr-manager` terminal dashboard
(`src/main.rs`, `src/models.rs`): the domain model (pull requests,
checks, mergeability), the state reconciler, the input dispatcher and
the background-task emission behaviour, together with theorems settling
the specification claims about them.

Conventions of the embedding:
- `HashMap<String, String>` is modelled as an association list whose
  `hmInsert` / `hmGet` reproduce the map's observable insert/get
  behaviour (insert overwrites the binding for an existing key).
- Spawning a background task is modelled by returning the list of
  `SpawnedTask` descriptors an operation creates; the single message a
  task sends on the event bus is modelled as a function of the result
  of its external-collaborator call (`fetch_prs_emit`,
  `fetch_last_commit_emit`).
- Operations that can panic (out-of-bounds indexing `prs[selected]`,
  `usize` underflow in `prs.len() - 1`) return `Option`, with `none`
  as the fault branch.
-/

/-- `Mergeable` from `src/models.rs`: the raw mergeability verdict. -/
inductive Mergeable where
  | Ok
  | Conflict
  | Unknown
deriving DecidableEq, Repr

/-- `CheckConclusion` from `src/models.rs`. -/
inductive CheckConclusion where
  | Success
  | Failure
  | Skipped
  | Cancelled
  | Unknown
deriving DecidableEq, Repr

/-- `CheckStatus` from `src/models.rs`. -/
inductive CheckStatus where
  | Completed
  | InProgress
  | Queued
deriving DecidableEq, Repr

/-- `CheckData` from `src/models.rs`: a named check run or a status context. -/
inductive CheckData where
  | CheckRun (name : String) (conclusion : CheckConclusion) (status : CheckStatus)
  | StatusContext (context : String) (state : CheckConclusion) (target_url : String)
deriving DecidableEq, Repr

/-- `CheckData::verdict` from `src/models.rs`. -/
def CheckData.verdict : CheckData → CheckConclusion
  | .CheckRun _ conclusion _ => conclusion
  | .StatusContext _ state _ => state

/-- `CheckData::state` from `src/models.rs`: a status context is always `Completed`. -/
def CheckData.state : CheckData → CheckStatus
  | .CheckRun _ _ status => status
  | .StatusContext _ _ _ => CheckStatus.Completed

/-- `CheckProgress` from `src/models.rs`. -/
inductive CheckProgress where
  | Pending
  | Success
  | Failure
deriving DecidableEq, Repr

/-- `PullRequest` from `src/models.rs` (i32/i64 fields become `Int`). -/
structure PullRequest where
  url : String
  id : Int
  node_id : String
  number : Int
  state : String
  mergeable : Mergeable
  locked : Bool
  title : String
  body : Option String
  created_at : String
  updated_at : String
  closed_at : Option String
  merged_at : Option String
  branch : String
  base_name : String
  base_commit : String
  draft : Bool
  checks : List CheckData
deriving DecidableEq, Repr

/-- The loop body of `PullRequest::check_status` (`src/models.rs`):
walks the check list, returning `Failure` at the first check whose
verdict is `Failure`, counting `InProgress`/`Queued` checks as pending,
and on exhaustion returning `Pending` if the pending tally is positive,
else `Success`. -/
def check_status_go : List CheckData → Nat → CheckProgress
  | [], pending => if pending > 0 then CheckProgress.Pending else CheckProgress.Success
  | check :: rest, pending =>
    if check.verdict = CheckConclusion.Failure then CheckProgress.Failure
    else
      match check.state with
      | CheckStatus.InProgress | CheckStatus.Queued => check_status_go rest (pending + 1)
      | CheckStatus.Completed => check_status_go rest pending

/-- `PullRequest::check_status` from `src/models.rs`. -/
def PullRequest.check_status (pr : PullRequest) : CheckProgress :=
  check_status_go pr.checks 0

/-- `PullRequest::checks_passing` from `src/models.rs`. -/
def PullRequest.checks_passing (pr : PullRequest) : Nat :=
  (pr.checks.filter (fun c => c.verdict == CheckConclusion.Success)).length

/-- `PullRequest::checks_scheduled` from `src/models.rs`. -/
def PullRequest.checks_scheduled (pr : PullRequest) : Nat :=
  (pr.checks.filter (fun c => c.verdict != CheckConclusion.Skipped)).length

/-- Lookup in the association-list model of `HashMap<String, String>`:
the value of the first binding for the key, as `HashMap::get`. -/
def hmGet (m : List (String × String)) (k : String) : Option String :=
  (m.find? (fun p => p.1 == k)).map (fun p => p.2)

/-- Insert in the association-list model of `HashMap<String, String>`:
overwrites any existing binding for the key, as `HashMap::insert`. -/
def hmInsert (m : List (String × String)) (k v : String) : List (String × String) :=
  (k, v) :: m.filter (fun p => p.1 != k)

/-- `AppState` from `src/main.rs`; `branches: HashMap<String, String>`
is the association-list model. -/
structure AppState where
  prs : List PullRequest
  branches : List (String × String)
  error_message : Option String
  done : Bool
deriving DecidableEq, Repr

/-- `App` from `src/main.rs`. The broadcast channel handles and the
`JoinSet` are runtime plumbing, modelled by the `SpawnedTask` lists and
`AppEvent` values the operations produce; `table_state` keeps the only
`TableState` component the loop reads or writes, its `selected` index. -/
structure App where
  repo : String
  state : AppState
  table_state : Option Nat
deriving DecidableEq, Repr

/-- `AppEvent` from `src/main.rs`: the event-bus message type. -/
inductive AppEvent where
  | FetchedPRs (prs : List PullRequest)
  | FetchedBranchCommit (branch : String) (commit : String)
  | Error (msg : String)
deriving DecidableEq, Repr

/-- Whether an event-bus message is the `Error` (Failure) variant. -/
def AppEvent.isFailure : AppEvent → Bool
  | .Error _ => true
  | _ => false

/-- A background task spawned onto the `JoinSet`, identified by the
external command it will run. -/
inductive SpawnedTask where
  | fetchPrsTask (repo : String)
  | fetchLastCommitTask (repo : String) (branch : String)
  | openCmd (url : String)
  | rebaseTask (repo : String) (number : Int)
deriving DecidableEq, Repr

/-- `SyncStatus`: the value of the STATUS cell computed by `App::row`
(`src/main.rs` lines 97-124), keeping the displayed label and dropping
the visual styling. -/
inductive SyncStatus where
  | UpToDate
  | Behind
  | Unsynced
  | Conflict
  | Unknown
deriving DecidableEq, Repr

/-- The STATUS cell of `App::row` (`src/main.rs`): compare the PR's
recorded base commit against the branch index entry for its base
branch, then match on `(pr.mergeable, commit)`. -/
def App.row_status (branches : List (String × String)) (pr : PullRequest) : SyncStatus :=
  let commit := (hmGet branches pr.base_name).map (fun c => pr.base_commit == c)
  match pr.mergeable, commit with
  | Mergeable.Ok, some true => SyncStatus.UpToDate
  | Mergeable.Ok, some false => SyncStatus.Behind
  | Mergeable.Ok, none => SyncStatus.Unsynced
  | Mergeable.Conflict, _ => SyncStatus.Conflict
  | _, _ => SyncStatus.Unknown

/-- Rust `str::split(sep)` on a character separator, on the character
list of the string: splitting the empty string gives `[""]`, a
separator at the end produces a trailing empty piece, and adjacent
separators produce empty pieces between them. -/
def splitChar (sep : Char) : List Char → List (List Char)
  | [] => [[]]
  | c :: rest =>
    match splitChar sep rest with
    | [] => [[c]]
    | g :: gs => if c = sep then [] :: g :: gs else (c :: g) :: gs

/-- Rust `msg.split(sep)` collected to a list of strings. -/
def rustSplit (sep : Char) (s : String) : List String :=
  (splitChar sep s.data).map String.mk

/-- `App::handle_app_event` (`src/main.rs` lines 295-309): the state
reconciler. `FetchedPRs` wholesale-replaces the PR list (and touches
nothing else, in particular not `table_state`); `FetchedBranchCommit`
upserts one branch binding; `Error` overwrites the error message with
`msg.split(newline).join(" ")`. -/
def App.handle_app_event (app : App) (event : AppEvent) : App :=
  match event with
  | AppEvent.FetchedPRs prs =>
      { app with state := { app.state with prs := prs } }
  | AppEvent.FetchedBranchCommit branch commit =>
      { app with state := { app.state with branches := hmInsert app.state.branches branch commit } }
  | AppEvent.Error msg =>
      { app with state := { app.state with
          error_message := some (String.intercalate " " (rustSplit '\x0a' msg)) } }

/-- `App::open_externally` (`src/main.rs` lines 178-184): indexes
`prs[selected]` with no bounds check (`none` is the panic branch) and
spawns the `open` command on the PR's URL. -/
def App.open_externally (app : App) (selected : Nat) : Option (App × List SpawnedTask) :=
  match app.state.prs[selected]? with
  | none => none
  | some pr => some (app, [SpawnedTask.openCmd pr.url])

/-- `App::rebase` (`src/main.rs` lines 186-219): indexes
`prs[selected]` with no bounds check (`none` is the panic branch),
returns early with no spawn when the PR's raw mergeability is not `Ok`,
and otherwise spawns the `gh pr update-branch --rebase` task. -/
def App.rebase (app : App) (selected : Nat) : Option (App × List SpawnedTask) :=
  match app.state.prs[selected]? with
  | none => none
  | some pr =>
    if pr.mergeable ≠ Mergeable.Ok then some (app, [])
    else some (app, [SpawnedTask.rebaseTask app.repo pr.number])

/-- `App::fetch_prs` (`src/main.rs` lines 234-242), the spawning side:
state untouched, one background task spawned. -/
def App.fetch_prs (app : App) : App × List SpawnedTask :=
  (app, [SpawnedTask.fetchPrsTask app.repo])

/-- `App::fetch_last_commit` (`src/main.rs` lines 221-232), the
spawning side: state untouched, one background task spawned. -/
def App.fetch_last_commit (app : App) (branch : String) : App × List SpawnedTask :=
  (app, [SpawnedTask.fetchLastCommitTask app.repo branch])

/-- The event-bus messages sent by the task body of `App::fetch_prs`
(`src/main.rs` lines 238-241), as a function of the result of the
external `fetch_prs` call: `unwrap_or_default()` turns a failure into
the empty list, and exactly one `FetchedPRs` message is sent. -/
def fetch_prs_emit (result : Except String (List PullRequest)) : List AppEvent :=
  [AppEvent.FetchedPRs (match result with | .ok prs => prs | .error _ => [])]

/-- The event-bus messages sent by the task body of
`App::fetch_last_commit` (`src/main.rs` lines 226-231), as a function
of the result of the external `fetch_last_branch_commit` call:
`unwrap_or_default()` turns a failure into the empty string, and
exactly one `FetchedBranchCommit` message is sent. -/
def fetch_last_commit_emit (branch : String) (result : Except String String) : List AppEvent :=
  [AppEvent.FetchedBranchCommit branch
    (match result with | .ok commit => commit | .error _ => "")]

/-- A terminal key code, matching the `KeyCode` cases `App::handle_term_event`
distinguishes; `other` covers every key its wildcard arm ignores. -/
inductive KeyCode where
  | char (c : Char)
  | up
  | down
  | enter
  | other
deriving DecidableEq, Repr

/-- A terminal event: a key event, or anything else (ignored). -/
inductive TermEvent where
  | key (code : KeyCode)
  | other
deriving DecidableEq, Repr

/-- `App::handle_term_event` (`src/main.rs` lines 244-293), the input
dispatcher. Returns the updated app and the tasks spawned; `none` is
the fault branch: an out-of-bounds `prs[selected]` in the Enter/`'s'`
paths, or the `usize` underflow of `prs.len() - 1` in the Down path
when the list is empty and a selection exists (Rust panics there in
debug builds). -/
def App.handle_term_event (app : App) (event : TermEvent) : Option (App × List SpawnedTask) :=
  match event with
  | TermEvent.key code =>
    match code with
    | KeyCode.char c =>
      if c = 'r' ∨ c = 'R' then some app.fetch_prs
      else if c = 'q' ∨ c = 'Q' then
        some ({ app with state := { app.state with done := true } }, [])
      else if c = 's' then
        match app.table_state with
        | some selected => app.rebase selected
        | none => some (app, [])
      else some (app, [])
    | KeyCode.up =>
      if app.state.prs.isEmpty then some (app, [])
      else
        let selected := match app.table_state with
          | none => 0
          | some i => if i > 0 then i - 1 else 0
        some ({ app with table_state := some selected }, [])
    | KeyCode.down =>
      match app.table_state with
      | none => some ({ app with table_state := some 0 }, [])
      | some i =>
        if app.state.prs.length = 0 then none
        else
          let selected :=
            if i < app.state.prs.length - 1 then i + 1 else app.state.prs.length - 1
          some ({ app with table_state := some selected }, [])
    | KeyCode.enter =>
      match app.table_state with
      | some selected => app.open_externally selected
      | none => some (app, [])
    | KeyCode.other => some (app, [])
  | TermEvent.other => some (app, [])

/-- A sample pull request used as concrete input in witnesses and
counterexamples. -/
def mkPR (number : Int) (mergeable : Mergeable) (base_name base_commit : String) : PullRequest :=
  { url := "https://example.com/pr"
    id := number
    node_id := ""
    number := number
    state := "open"
    mergeable := mergeable
    locked := false
    title := "title"
    body := none
    created_at := ""
    updated_at := ""
    closed_at := none
    merged_at := none
    branch := "feature"
    base_name := base_name
    base_commit := base_commit
    draft := false
    checks := [] }

/-- A PR with a merge conflict. -/
def prConflict : PullRequest := mkPR 1 Mergeable.Conflict "main" "abc123"

/-- A mergeable PR recorded against base commit `abc123` of `main`. -/
def prOk : PullRequest := mkPR 2 Mergeable.Ok "main" "abc123"

/-- An app whose PR list is empty and with no selection. -/
def appEmptyNone : App :=
  { repo := "me/repo"
    state := { prs := [], branches := [], error_message := none, done := false }
    table_state := none }

/-- An app whose PR list is empty but whose selection is `Some 0`. -/
def appEmptySel : App := { appEmptyNone with table_state := some 0 }

/-- An app holding one conflicting PR with it selected. -/
def appOnePr : App :=
  { repo := "me/repo"
    state := { prs := [prConflict], branches := [], error_message := none, done := false }
    table_state := some 0 }

/-- An app whose selection is the stale index 5. -/
def appStale : App :=
  { repo := "me/repo"
    state := { prs := [prConflict, prOk], branches := [], error_message := none, done := false }
    table_state := some 5 }

/-- C4: for every pull request whose raw mergeability verdict is
`Conflict`, the displayed sync status is `Conflict`, for every possible
content of the branch-commit index (base commit equal, differing, or
absent). -/
theorem c4_conflict_wins (branches : List (String × String)) (pr : PullRequest)
    (h : pr.mergeable = Mergeable.Conflict) :
    App.row_status branches pr = SyncStatus.Conflict := by
  unfold App.row_status
  rw [h]

/-- Witness for C4 at a concrete conflicting PR and a non-empty index. -/
theorem c4_conflict_wins_witness :
    prConflict.mergeable = Mergeable.Conflict ∧
    App.row_status [("main", "abc123")] prConflict = SyncStatus.Conflict :=
  ⟨rfl, c4_conflict_wins [("main", "abc123")] prConflict rfl⟩

/-- C5: for every pull request whose base branch name is absent from
the branch-commit index, the derived sync status is `Unsynced` when the
raw verdict is `Ok`, `Conflict` when it is `Conflict`, and `Unknown`
when it is `Unknown` — never `UpToDate` and never `Behind`. -/
theorem c5_absent_branch (branches : List (String × String)) (pr : PullRequest)
    (h : hmGet branches pr.base_name = none) :
    (pr.mergeable = Mergeable.Ok → App.row_status branches pr = SyncStatus.Unsynced) ∧
    (pr.mergeable = Mergeable.Conflict → App.row_status branches pr = SyncStatus.Conflict) ∧
    (pr.mergeable = Mergeable.Unknown → App.row_status branches pr = SyncStatus.Unknown) ∧
    App.row_status branches pr ≠ SyncStatus.UpToDate ∧
    App.row_status branches pr ≠ SyncStatus.Behind := by
  unfold App.row_status
  rw [h]
  cases pr.mergeable <;> simp

/-- Witness for C5 at a concrete mergeable PR and the empty index. -/
theorem c5_absent_branch_witness :
    hmGet [] prOk.base_name = none ∧
    App.row_status [] prOk = SyncStatus.Unsynced :=
  ⟨rfl, (c5_absent_branch [] prOk rfl).1 rfl⟩

/-- The loop of `check_status` computes the rollup: `Failure` if any
check's verdict is `Failure`, else `Pending` if any check is
`Queued`/`InProgress` or the incoming pending tally is positive, else
`Success`. -/
theorem check_status_go_eq (cs : List CheckData) (pending : Nat) :
    check_status_go cs pending =
      if cs.any (fun c => c.verdict == CheckConclusion.Failure) then CheckProgress.Failure
      else if cs.any (fun c => c.state == CheckStatus.Queued || c.state == CheckStatus.InProgress)
              || pending > 0 then CheckProgress.Pending
      else CheckProgress.Success := by
  induction cs generalizing pending with
  | nil => simp [check_status_go]
  | cons c rest ih =>
    by_cases hf : c.verdict = CheckConclusion.Failure
    · simp [check_status_go, hf]
    · cases hs : c.state <;>
        simp [check_status_go, hf, hs, ih, Nat.succ_ne_zero, or_assoc, or_comm, or_left_comm]

/-- C6: the overall check rollup of a pull request is `Failure` if any
check's verdict is `Failure` (regardless of the other checks);
otherwise it is `Pending` if any check's progress is `Queued` or
`InProgress`; otherwise it is `Success`. -/
theorem c6_check_rollup (pr : PullRequest) :
    pr.check_status =
      if pr.checks.any (fun c => c.verdict == CheckConclusion.Failure) then
        CheckProgress.Failure
      else if pr.checks.any
          (fun c => c.state == CheckStatus.Queued || c.state == CheckStatus.InProgress) then
        CheckProgress.Pending
      else CheckProgress.Success := by
  unfold PullRequest.check_status
  rw [check_status_go_eq]
  simp

/-- C7: invoking rebase on a selected pull request whose raw
mergeability verdict is not `Ok` is a silent no-op: no background task
is spawned (so no event can be emitted) and the application state is
unchanged. -/
theorem c7_rebase_noop (app : App) (selected : Nat) (pr : PullRequest)
    (h1 : app.state.prs[selected]? = some pr) (h2 : pr.mergeable ≠ Mergeable.Ok) :
    App.rebase app selected = some (app, []) := by
  unfold App.rebase
  rw [h1]
  simp [h2]

/-- Witness for C7: rebase on the selected conflicting PR of `appOnePr`
spawns nothing and keeps the app unchanged. -/
theorem c7_rebase_noop_witness :
    appOnePr.state.prs[0]? = some prConflict ∧
    App.rebase appOnePr 0 = some (appOnePr, []) :=
  ⟨rfl, c7_rebase_noop appOnePr 0 prConflict rfl (by decide)⟩

/-- C8: applying a `Failure` (`Error`) event to the state replaces the
error message with the event's message with every embedded newline
collapsed to a single space; in particular the message
`"line1\nline2"` yields the displayed error message `"line1 line2"`. -/
theorem c8_failure_newlines (app : App) (msg : String) :
    (App.handle_app_event app (AppEvent.Error msg)).state.error_message
        = some (String.intercalate " " (rustSplit '\x0a' msg)) ∧
    (App.handle_app_event app (AppEvent.Error "line1\x0aline2")).state.error_message
        = some "line1 line2" :=
  ⟨rfl, show some (String.intercalate " " (rustSplit '\x0a' "line1\x0aline2")) = _ by decide⟩

/-- Counterexample to C1: with the selection at index 5, replacing the
pull-request list by one of length 1 leaves the selection at 5 — not
re-clamped into `[0, 0]` and not cleared — so an out-of-bounds
selection survives into the next render. -/
theorem c1_counterexample :
    (App.handle_app_event appStale (AppEvent.FetchedPRs [prOk])).state.prs.length = 1 ∧
    (App.handle_app_event appStale (AppEvent.FetchedPRs [prOk])).table_state = some 5 ∧
    ¬ 5 < 1 :=
  ⟨rfl, rfl, by decide⟩

/-- C1 amended: replacing the pull-request list performs no
re-clamping at all — the reconciler leaves the selection index exactly
as it was (the selection is only moved by the Up/Down key handlers), so
after the list shrinks below the selection the stale index persists. -/
theorem c1_amended (app : App) (prs : List PullRequest) :
    (App.handle_app_event app (AppEvent.FetchedPRs prs)).table_state = app.table_state ∧
    (App.handle_app_event app (AppEvent.FetchedPRs prs)).state.prs = prs :=
  ⟨rfl, rfl⟩

/-- Counterexample to C2: when the external call fails, the spawned
fetch tasks do not emit a `Failure` event — `unwrap_or_default()` makes
them emit the success-variant event with the default payload (empty
list, empty commit hash), so the diagnostic is dropped. -/
theorem c2_counterexample :
    fetch_prs_emit (Except.error "gh command failed: boom")
        = [AppEvent.FetchedPRs []] ∧
    fetch_last_commit_emit "master" (Except.error "gh command failed: boom")
        = [AppEvent.FetchedBranchCommit "master" ""] ∧
    (fetch_prs_emit (Except.error "gh command failed: boom")).all
        (fun e => ! e.isFailure) = true ∧
    (fetch_last_commit_emit "master" (Except.error "gh command failed: boom")).all
        (fun e => ! e.isFailure) = true :=
  ⟨rfl, rfl, rfl, rfl⟩

/-- C2 amended: every spawned background fetch emits exactly one Event
Bus message, and that message is always the success-variant event —
never a `Failure` event; on a failed external call the payload is the
default (empty list for PRs, empty string for the branch commit). -/
theorem c2_amended (r : Except String (List PullRequest)) (b : String)
    (r2 : Except String String) :
    (fetch_prs_emit r).length = 1 ∧
    (fetch_last_commit_emit b r2).length = 1 ∧
    (fetch_prs_emit r).all (fun e => ! e.isFailure) = true ∧
    (fetch_last_commit_emit b r2).all (fun e => ! e.isFailure) = true ∧
    fetch_prs_emit (Except.error "gh command failed: boom") = [AppEvent.FetchedPRs []] ∧
    fetch_last_commit_emit b (Except.error "gh command failed: boom")
        = [AppEvent.FetchedBranchCommit b ""] :=
  ⟨rfl, rfl, rfl, rfl, rfl, rfl⟩

/-- C3 is a code bug: the Down handler, unlike the Up handler, has no
emptiness guard. On an empty list with no prior selection it selects
index 0 (the state changes); on an empty list with a prior selection it
evaluates `prs.len() - 1` on `usize` with `len = 0`, the underflow
fault branch. Both contradict the documented no-op. -/
theorem c3_down_empty_bug :
    App.handle_term_event appEmptyNone (TermEvent.key KeyCode.down)
        = some ({ appEmptyNone with table_state := some 0 }, []) ∧
    appEmptyNone.table_state = none ∧
    App.handle_term_event appEmptySel (TermEvent.key KeyCode.down) = none :=
  ⟨rfl, rfl, rfl⟩

/-- C9: the activate (Enter) and rebase (`'s'`) actions index the
pull-request list with the stored selection without a bounds check:
whenever the selection index is at least the current list length, the
access `prs[selected]` is out of bounds and the total embedding takes
the fault branch, both in the raw operations and through the input
dispatcher. -/
theorem c9_oob_access (app : App) (sel : Nat) (h : app.state.prs.length ≤ sel)
    (h2 : app.table_state = some sel) :
    App.open_externally app sel = none ∧
    App.rebase app sel = none ∧
    App.handle_term_event app (TermEvent.key KeyCode.enter) = none ∧
    App.handle_term_event app (TermEvent.key (KeyCode.char 's')) = none := by
  have hx : app.state.prs[sel]? = none := by
    rw [List.getElem?_eq_none_iff]
    exact h
  refine ⟨?_, ?_, ?_, ?_⟩
  · unfold App.open_externally
    rw [hx]
  · unfold App.rebase
    rw [hx]
  · simp [App.handle_term_event, h2, App.open_externally, hx]
  · simp [App.handle_term_event, h2, App.rebase, hx]

/-- Witness for C9: the stale app (`prs` of length 2, selection 5)
faults on activate and rebase. -/
theorem c9_oob_access_witness :
    appStale.state.prs.length ≤ 5 ∧ appStale.table_state = some 5 ∧
    (App.open_externally appStale 5 = none ∧
     App.rebase appStale 5 = none ∧
     App.handle_term_event appStale (TermEvent.key KeyCode.enter) = none ∧
     App.handle_term_event appStale (TermEvent.key (KeyCode.char 's')) = none) :=
  ⟨by decide, rfl, c9_oob_access appStale 5 (by decide) rfl⟩

/-- C10: when a branch-commit lookup fails, the spawned task emits
`FetchedBranchCommit(branch, "")` (the empty default commit hash), the
reconciler inserts the empty string into the branch-commit index, and
every pull request based on that branch with raw verdict `Ok` and a
non-empty recorded base commit is then displayed as `Behind`. -/
theorem c10_failed_lookup_behind (app : App) (b e : String) (pr : PullRequest)
    (h1 : pr.mergeable = Mergeable.Ok) (h2 : pr.base_name = b)
    (h3 : pr.base_commit ≠ "") :
    fetch_last_commit_emit b (Except.error e) = [AppEvent.FetchedBranchCommit b ""] ∧
    hmGet (App.handle_app_event app (AppEvent.FetchedBranchCommit b "")).state.branches b
        = some "" ∧
    App.row_status (App.handle_app_event app (AppEvent.FetchedBranchCommit b "")).state.branches pr
        = SyncStatus.Behind := by
  refine ⟨rfl, ?_, ?_⟩
  · simp [App.handle_app_event, hmGet, hmInsert]
  · have hb : (pr.base_commit == "") = false := by
      rw [beq_eq_false_iff_ne]
      exact h3
    simp [App.handle_app_event, App.row_status, hmGet, hmInsert, h1, h2, hb]

/-- Witness for C10: after a failed lookup for `main`, the mergeable
PR `prOk` (base commit `abc123`) renders as `Behind`. -/
theorem c10_failed_lookup_behind_witness :
    prOk.mergeable = Mergeable.Ok ∧ prOk.base_name = "main" ∧ prOk.base_commit ≠ "" ∧
    App.row_status
        (App.handle_app_event appEmptyNone
          (AppEvent.FetchedBranchCommit "main" "")).state.branches prOk
      = SyncStatus.Behind :=
  ⟨rfl, rfl, by decide,
    (c10_failed_lookup_behind appEmptyNone "main" "boom" prOk rfl rfl (by decide)).2.2⟩
